import Mathlib

/-!
Shallow embedding of the friends/presence/chat synchronization controller of
this repository.  Two revisions of the controller exist in the sources:

* `R1` embeds `src/src/context/FriendsContext.tsx` (two-round-trip loaders:
  fetch the collection, then fetch the referenced directory rows separately
  and join in memory);
* `R2` embeds `src/unnamed/part_000` (single-query loaders using the
  backend's foreign-key join).

Remote state is a record of row lists (`DB`), one per backend table, plus a
counter supplying backend-generated row ids.  Each remote round-trip that the
client code checks for failure is given an explicit boolean error flag; a
loader that hits an error returns the previous mirror value unchanged,
exactly like the early `return` in the source.  The supabase query
combinators used by the code are modelled as plain list operations:
`.eq`/`.in`/`.or` filters become `List.filter`, `.order(desc).limit(50)`
becomes a stable descending sort followed by `List.take 50`, and `.single()`
(PostgREST single-object mode) yields the row when exactly one row matches
and null data (with an error the callers either ignore or map to failure)
when zero or more than one row matches.
-/

namespace StudyApp

/-- A row of the read-only `users` directory table: `users(id, name, email)`. -/
structure UserRow where
  id : String
  name : String
  email : String
  deriving DecidableEq, Repr

/-- A row of the `friends` table: `friends(id, user_id, friend_id, created_at)`.
Row ids are backend-generated naturals; timestamps are naturals. -/
structure FriendRow where
  id : Nat
  user_id : String
  friend_id : String
  created_at : Nat
  deriving DecidableEq, Repr

/-- A row of `friend_requests(id, sender_id, receiver_id, status, created_at)`.
The status column holds the strings used by the code:
"pending", "accepted", "rejected". -/
structure RequestRow where
  id : Nat
  sender_id : String
  receiver_id : String
  status : String
  created_at : Nat
  deriving DecidableEq, Repr

/-- A row of `study_sessions(id, user_id, status, subject, started_at,
last_active)`; `subject` is nullable. -/
structure SessionRow where
  id : Nat
  user_id : String
  status : String
  subject : Option String
  started_at : Nat
  last_active : Nat
  deriving DecidableEq, Repr

/-- A row of `group_messages(id, user_id, message, mentions, created_at)`;
the `mentions` array column is nullable (the loaders default it with
`m.mentions || []`). -/
structure MessageRow where
  id : Nat
  user_id : String
  message : String
  mentions : Option (List String)
  created_at : Nat
  deriving DecidableEq, Repr

/-- The remote database state: the four mutable collections, the read-only
user directory, and a counter from which backend-generated ids are drawn
(every stored id is below `nextId`, and inserts consume fresh ids). -/
structure DB where
  users : List UserRow
  friends : List FriendRow
  friend_requests : List RequestRow
  study_sessions : List SessionRow
  group_messages : List MessageRow
  nextId : Nat
  deriving DecidableEq, Repr

/-- The `Friend` mirror record built by `loadFriends` (fields as constructed
by the object literal in both revisions). -/
structure Friend where
  id : Nat
  user_id : String
  friend_id : String
  friend_name : String
  friend_email : String
  created_at : Nat
  deriving DecidableEq, Repr

/-- The `FriendRequest` mirror record built by `loadFriendRequests`. -/
structure FriendRequest where
  id : Nat
  sender_id : String
  receiver_id : String
  sender_name : String
  sender_email : String
  status : String
  created_at : Nat
  deriving DecidableEq, Repr

/-- The `StudySession` mirror record built by `loadStudySessions`. -/
structure StudySession where
  id : Nat
  user_id : String
  user_name : String
  status : String
  subject : Option String
  started_at : Nat
  last_active : Nat
  deriving DecidableEq, Repr

/-- The `GroupMessage` mirror record built by `loadGroupMessages`. -/
structure GroupMessage where
  id : Nat
  user_id : String
  user_name : String
  message : String
  mentions : List String
  created_at : Nat
  deriving DecidableEq, Repr

/-- The client-side state: the remote database plus the four in-memory
mirrors owned by the provider (`friends`, `friendRequests`, `studySessions`,
`groupMessages`). -/
structure AppState where
  db : DB
  friends : List Friend
  friendRequests : List FriendRequest
  studySessions : List StudySession
  groupMessages : List GroupMessage
  deriving DecidableEq, Repr

/-- PostgREST `.single()`: the row when exactly one row matches the query,
null data otherwise (zero or several matching rows produce error PGRST116
with null data; every caller in the sources treats error and null data the
same way, either by throwing or by ignoring the error object). -/
def single {α : Type} (rows : List α) : Option α :=
  match rows with
  | [a] => some a
  | _ => none

/-- JavaScript `x?.f || fallback` on an optional string: the fallback when
the object is null or the string is falsy (empty). -/
def jsOr (s : Option String) (fallback : String) : String :=
  match s with
  | some v => if v = "" then fallback else v
  | none => fallback

/-- The `.or(and(user_id.eq.a,friend_id.eq.b),and(user_id.eq.b,friend_id.eq.a))`
filter used by `sendFriendRequest` and `removeFriend`. -/
def pairMatch (a b : String) (r : FriendRow) : Bool :=
  (r.user_id == a && r.friend_id == b) || (r.user_id == b && r.friend_id == a)

/-- The backend's `order('created_at', { ascending: false })`: a stable sort
of the message table, newest first. -/
def sortByCreatedDesc (l : List MessageRow) : List MessageRow :=
  List.insertionSort (fun x y => y.created_at ≤ x.created_at) l

instance : IsTotal MessageRow (fun x y => y.created_at ≤ x.created_at) :=
  ⟨fun a b => (Nat.le_total b.created_at a.created_at)⟩

instance : IsTrans MessageRow (fun x y => y.created_at ≤ x.created_at) :=
  ⟨fun _ _ _ hab hbc => Nat.le_trans hbc hab⟩

/-- JavaScript `subject || null` on an optional string argument: null when
the argument is absent or falsy (empty string). -/
def jsOrNull (s : Option String) : Option String :=
  match s with
  | some v => if v = "" then none else some v
  | none => none

/-- Modelled from the spec: the `study_sessions` schema is not under `src/`;
§3 and §6 of the spec state "One logical session per user; writes are
upserts keyed by user id" (`upsert key = user_id`).  When a row for the user
exists, the upsert updates that row's `status`, `subject` and `last_active`
(the payload carries neither `id` nor `started_at`, so those columns keep
their stored values); otherwise it inserts a fresh row, with the backend
supplying the id and defaulting `started_at` to the write time. -/
def upsertSession (u : String) (status : String) (subject : Option String)
    (now : Nat) (db : DB) : DB :=
  if db.study_sessions.any (fun s => s.user_id == u) then
    { db with study_sessions := db.study_sessions.map (fun s =>
        if s.user_id == u then
          { s with status := status, subject := subject, last_active := now }
        else s) }
  else
    { db with
      study_sessions := db.study_sessions ++
        [{ id := db.nextId, user_id := u, status := status, subject := subject,
           started_at := now, last_active := now }],
      nextId := db.nextId + 1 }

namespace R1

/-- Embeds `loadFriends` of `src/src/context/FriendsContext.tsx`: fetch the
caller's `friends` rows (`e1` = that fetch errors), early-return on error
keeping `prev`, set the mirror to `[]` when no rows, otherwise fetch the
referenced users (`e2` = that fetch errors, again keeping `prev`) and join in
memory with "Unknown"/"" defaults. -/
def loadFriends (u : String) (db : DB) (e1 e2 : Bool) (prev : List Friend) :
    List Friend :=
  if e1 then prev else
  let friendsData := db.friends.filter (fun f => f.user_id == u)
  if friendsData.isEmpty then [] else
  let friendIds := friendsData.map (fun f => f.friend_id)
  if e2 then prev else
  let usersData := db.users.filter (fun us => friendIds.contains us.id)
  friendsData.map (fun f =>
    let friendUser := usersData.find? (fun us => us.id == f.friend_id)
    { id := f.id, user_id := f.user_id, friend_id := f.friend_id,
      friend_name := jsOr (friendUser.map (fun fu => fu.name)) "Unknown",
      friend_email := jsOr (friendUser.map (fun fu => fu.email)) "",
      created_at := f.created_at })

/-- Embeds `loadFriendRequests` of `src/src/context/FriendsContext.tsx`:
fetch pending requests addressed to the caller, then the sender directory
rows, and join in memory. -/
def loadFriendRequests (u : String) (db : DB) (e1 e2 : Bool)
    (prev : List FriendRequest) : List FriendRequest :=
  if e1 then prev else
  let requestsData :=
    db.friend_requests.filter (fun r => r.receiver_id == u && r.status == "pending")
  if requestsData.isEmpty then [] else
  let senderIds := requestsData.map (fun r => r.sender_id)
  if e2 then prev else
  let usersData := db.users.filter (fun us => senderIds.contains us.id)
  requestsData.map (fun r =>
    let senderUser := usersData.find? (fun us => us.id == r.sender_id)
    { id := r.id, sender_id := r.sender_id, receiver_id := r.receiver_id,
      sender_name := jsOr (senderUser.map (fun su => su.name)) "Unknown",
      sender_email := jsOr (senderUser.map (fun su => su.email)) "",
      status := r.status, created_at := r.created_at })

/-- Embeds `loadStudySessions` of `src/src/context/FriendsContext.tsx`:
fetch sessions of the caller and of the ids in the current `friends` mirror,
then the referenced directory rows, and join in memory. -/
def loadStudySessions (u : String) (db : DB) (e1 e2 : Bool)
    (friendsMirror : List Friend) (prev : List StudySession) :
    List StudySession :=
  let friendIds := friendsMirror.map (fun f => f.friend_id)
  let allUserIds := u :: friendIds
  if e1 then prev else
  let sessionsData := db.study_sessions.filter (fun s => allUserIds.contains s.user_id)
  if sessionsData.isEmpty then [] else
  let userIds := sessionsData.map (fun s => s.user_id)
  if e2 then prev else
  let usersData := db.users.filter (fun us => userIds.contains us.id)
  sessionsData.map (fun s =>
    let sessionUser := usersData.find? (fun us => us.id == s.user_id)
    { id := s.id, user_id := s.user_id,
      user_name := jsOr (sessionUser.map (fun su => su.name)) "Unknown",
      status := s.status, subject := s.subject,
      started_at := s.started_at, last_active := s.last_active })

/-- Embeds `loadGroupMessages` of `src/src/context/FriendsContext.tsx`:
fetch the newest 50 messages (descending `created_at`), fetch the distinct
author directory rows, join in memory, and reverse so the mirror is
oldest-first. -/
def loadGroupMessages (u : String) (db : DB) (e1 e2 : Bool)
    (prev : List GroupMessage) : List GroupMessage :=
  if e1 then prev else
  let messagesData := (sortByCreatedDesc db.group_messages).take 50
  if messagesData.isEmpty then [] else
  let userIds := (messagesData.map (fun m => m.user_id)).dedup
  if e2 then prev else
  let usersData := db.users.filter (fun us => userIds.contains us.id)
  (messagesData.map (fun m =>
    let messageUser := usersData.find? (fun us => us.id == m.user_id)
    { id := m.id, user_id := m.user_id,
      user_name := jsOr (messageUser.map (fun mu => mu.name)) "Unknown",
      message := m.message, mentions := m.mentions.getD [],
      created_at := m.created_at })).reverse

/-- Embeds `sendFriendRequest` of `src/src/context/FriendsContext.tsx`:
resolve the email through a `.single()` directory lookup (failure or null
data throws "User not found"), throw on self, throw "Already friends" when
the or-of-and pair query returns a single row (with zero or with two
matching rows `.single()` yields null data and the ignored-error check
passes), then insert a request row carrying only `sender_id` and
`receiver_id`; the status column's `pending` default and the generated id
and timestamp come from the backend schema, which is not under `src/` and is
modelled from the spec ("initial state `pending`").  `insErr` is the insert
round-trip failing. -/
def sendFriendRequest (u : String) (email : String) (now : Nat)
    (insErr : Bool) (st : AppState) : AppState × Bool :=
  match single (st.db.users.filter (fun us => us.email == email)) with
  | none => (st, false)
  | some userData =>
    if userData.id == u then (st, false)
    else
      match single (st.db.friends.filter (pairMatch u userData.id)) with
      | some _ => (st, false)
      | none =>
        if insErr then (st, false)
        else
          ({ st with db := { st.db with
              friend_requests := st.db.friend_requests ++
                [{ id := st.db.nextId, sender_id := u,
                   receiver_id := userData.id, status := "pending",
                   created_at := now }],
              nextId := st.db.nextId + 1 } }, true)

/-- Embeds `acceptFriendRequest` of `src/src/context/FriendsContext.tsx`:
look the request up by id with `.single()`, insert the two symmetric friend
rows (`insErr` = that insert failing), update the request's status to
`accepted` (`updErr` = that update failing, after which the inserted rows
remain: no rollback), then reload the friends and friend-request mirrors
(`lf1 lf2 lr1 lr2` = the reload fetches failing). -/
def acceptFriendRequest (u : String) (requestId : Nat) (now : Nat)
    (insErr updErr lf1 lf2 lr1 lr2 : Bool) (st : AppState) :
    AppState × Bool :=
  match single (st.db.friend_requests.filter (fun r => r.id == requestId)) with
  | none => (st, false)
  | some request =>
    if insErr then (st, false)
    else
      let db1 := { st.db with
        friends := st.db.friends ++
          [{ id := st.db.nextId, user_id := request.receiver_id,
             friend_id := request.sender_id, created_at := now },
           { id := st.db.nextId + 1, user_id := request.sender_id,
             friend_id := request.receiver_id, created_at := now }],
        nextId := st.db.nextId + 2 }
      if updErr then ({ st with db := db1 }, false)
      else
        let db2 := { db1 with
          friend_requests := db1.friend_requests.map (fun r =>
            if r.id == requestId then { r with status := "accepted" } else r) }
        let friends' := loadFriends u db2 lf1 lf2 st.friends
        let friendRequests' := loadFriendRequests u db2 lr1 lr2 st.friendRequests
        ({ st with
            db := db2,
            friends := friends',
            friendRequests := friendRequests' }, true)

/-- Embeds `rejectFriendRequest` of `src/src/context/FriendsContext.tsx`:
update the request's status to `rejected` (`updErr` = that update failing),
then reload the friend-request mirror. -/
def rejectFriendRequest (u : String) (requestId : Nat)
    (updErr lr1 lr2 : Bool) (st : AppState) : AppState × Bool :=
  if updErr then (st, false)
  else
    let db1 := { st.db with
      friend_requests := st.db.friend_requests.map (fun r =>
        if r.id == requestId then { r with status := "rejected" } else r) }
    ({ st with
        db := db1,
        friendRequests := loadFriendRequests u db1 lr1 lr2 st.friendRequests },
     true)

/-- Embeds `removeFriend` of `src/src/context/FriendsContext.tsx`: one
delete matched by the or-of-and pair filter (`delErr` = the delete failing),
then reload the friends mirror. -/
def removeFriend (u : String) (friendId : String) (delErr lf1 lf2 : Bool)
    (st : AppState) : AppState × Bool :=
  if delErr then (st, false)
  else
    let db1 := { st.db with
      friends := st.db.friends.filter (fun r => !(pairMatch u friendId r)) }
    ({ st with
        db := db1,
        friends := loadFriends u db1 lf1 lf2 st.friends }, true)

/-- Embeds `updateStudyStatus` of `src/src/context/FriendsContext.tsx`: one
upsert of `{ user_id, status, subject: subject || null, last_active: now }`
(`upErr` = the upsert failing; the function returns void and performs no
reload).  The upsert semantics live in `StudyApp.upsertSession`. -/
def updateStudyStatus (u : String) (status : String) (subject : Option String)
    (now : Nat) (upErr : Bool) (st : AppState) : AppState :=
  if upErr then st
  else { st with db := upsertSession u status (jsOrNull subject) now st.db }

/-- Embeds `sendGroupMessage` of `src/src/context/FriendsContext.tsx`: one
insert of `{ user_id, message, mentions }` with `mentions` defaulting to the
empty array (`insErr` = the insert failing; no reload — the mirror refresh
relies on the notification channel). -/
def sendGroupMessage (u : String) (message : String) (mentions : List String)
    (now : Nat) (insErr : Bool) (st : AppState) : AppState :=
  if insErr then st
  else
    { st with db := { st.db with
        group_messages := st.db.group_messages ++
          [{ id := st.db.nextId, user_id := u, message := message,
             mentions := some mentions, created_at := now }],
        nextId := st.db.nextId + 1 } }

end R1

namespace R2

/-- Embeds `loadFriends` of `src/unnamed/part_000`: a single query that
selects the caller's `friends` rows together with the foreign-key-joined
directory row `friend:users!friends_friend_id_fkey(name, email)` (null when
the referenced user is absent), mapped with "Unknown"/"" defaults; `e` = the
fetch errors, keeping `prev`. -/
def loadFriends (u : String) (db : DB) (e : Bool) (prev : List Friend) :
    List Friend :=
  if e then prev else
  (db.friends.filter (fun f => f.user_id == u)).map (fun f =>
    let friend := db.users.find? (fun us => us.id == f.friend_id)
    { id := f.id, user_id := f.user_id, friend_id := f.friend_id,
      friend_name := jsOr (friend.map (fun fu => fu.name)) "Unknown",
      friend_email := jsOr (friend.map (fun fu => fu.email)) "",
      created_at := f.created_at })

/-- Embeds `loadFriendRequests` of `src/unnamed/part_000`: pending requests
addressed to the caller with the foreign-key-joined sender row. -/
def loadFriendRequests (u : String) (db : DB) (e : Bool)
    (prev : List FriendRequest) : List FriendRequest :=
  if e then prev else
  (db.friend_requests.filter
      (fun r => r.receiver_id == u && r.status == "pending")).map (fun r =>
    let sender := db.users.find? (fun us => us.id == r.sender_id)
    { id := r.id, sender_id := r.sender_id, receiver_id := r.receiver_id,
      sender_name := jsOr (sender.map (fun su => su.name)) "Unknown",
      sender_email := jsOr (sender.map (fun su => su.email)) "",
      status := r.status, created_at := r.created_at })

/-- Embeds `loadStudySessions` of `src/unnamed/part_000`: sessions of the
caller and of the ids in the current `friends` mirror, with the
foreign-key-joined user row. -/
def loadStudySessions (u : String) (db : DB) (e : Bool)
    (friendsMirror : List Friend) (prev : List StudySession) :
    List StudySession :=
  let friendIds := friendsMirror.map (fun f => f.friend_id)
  let allUserIds := u :: friendIds
  if e then prev else
  (db.study_sessions.filter (fun s => allUserIds.contains s.user_id)).map
    (fun s =>
      let user := db.users.find? (fun us => us.id == s.user_id)
      { id := s.id, user_id := s.user_id,
        user_name := jsOr (user.map (fun su => su.name)) "Unknown",
        status := s.status, subject := s.subject,
        started_at := s.started_at, last_active := s.last_active })

/-- Embeds `loadGroupMessages` of `src/unnamed/part_000`: the newest 50
messages with the foreign-key-joined author row, reversed so the mirror is
oldest-first. -/
def loadGroupMessages (u : String) (db : DB) (e : Bool)
    (prev : List GroupMessage) : List GroupMessage :=
  if e then prev else
  (((sortByCreatedDesc db.group_messages).take 50).map (fun m =>
    let user := db.users.find? (fun us => us.id == m.user_id)
    { id := m.id, user_id := m.user_id,
      user_name := jsOr (user.map (fun mu => mu.name)) "Unknown",
      message := m.message, mentions := m.mentions.getD [],
      created_at := m.created_at })).reverse

/-- Embeds `sendFriendRequest` of `src/unnamed/part_000` (the mutation's
body is character-identical to revision 1's; see `R1.sendFriendRequest` for
the round-trip commentary). -/
def sendFriendRequest (u : String) (email : String) (now : Nat)
    (insErr : Bool) (st : AppState) : AppState × Bool :=
  match single (st.db.users.filter (fun us => us.email == email)) with
  | none => (st, false)
  | some userData =>
    if userData.id == u then (st, false)
    else
      match single (st.db.friends.filter (pairMatch u userData.id)) with
      | some _ => (st, false)
      | none =>
        if insErr then (st, false)
        else
          ({ st with db := { st.db with
              friend_requests := st.db.friend_requests ++
                [{ id := st.db.nextId, sender_id := u,
                   receiver_id := userData.id, status := "pending",
                   created_at := now }],
              nextId := st.db.nextId + 1 } }, true)

/-- Embeds `acceptFriendRequest` of `src/unnamed/part_000` (body identical
to revision 1's except that the trailing reloads call this revision's
loaders). -/
def acceptFriendRequest (u : String) (requestId : Nat) (now : Nat)
    (insErr updErr lf lr : Bool) (st : AppState) : AppState × Bool :=
  match single (st.db.friend_requests.filter (fun r => r.id == requestId)) with
  | none => (st, false)
  | some request =>
    if insErr then (st, false)
    else
      let db1 := { st.db with
        friends := st.db.friends ++
          [{ id := st.db.nextId, user_id := request.receiver_id,
             friend_id := request.sender_id, created_at := now },
           { id := st.db.nextId + 1, user_id := request.sender_id,
             friend_id := request.receiver_id, created_at := now }],
        nextId := st.db.nextId + 2 }
      if updErr then ({ st with db := db1 }, false)
      else
        let db2 := { db1 with
          friend_requests := db1.friend_requests.map (fun r =>
            if r.id == requestId then { r with status := "accepted" } else r) }
        let friends' := loadFriends u db2 lf st.friends
        let friendRequests' := loadFriendRequests u db2 lr st.friendRequests
        ({ st with
            db := db2,
            friends := friends',
            friendRequests := friendRequests' }, true)

/-- Embeds `rejectFriendRequest` of `src/unnamed/part_000`. -/
def rejectFriendRequest (u : String) (requestId : Nat)
    (updErr lr : Bool) (st : AppState) : AppState × Bool :=
  if updErr then (st, false)
  else
    let db1 := { st.db with
      friend_requests := st.db.friend_requests.map (fun r =>
        if r.id == requestId then { r with status := "rejected" } else r) }
    ({ st with
        db := db1,
        friendRequests := loadFriendRequests u db1 lr st.friendRequests },
     true)

/-- Embeds `removeFriend` of `src/unnamed/part_000`. -/
def removeFriend (u : String) (friendId : String) (delErr lf : Bool)
    (st : AppState) : AppState × Bool :=
  if delErr then (st, false)
  else
    let db1 := { st.db with
      friends := st.db.friends.filter (fun r => !(pairMatch u friendId r)) }
    ({ st with
        db := db1,
        friends := loadFriends u db1 lf st.friends }, true)

/-- Embeds `updateStudyStatus` of `src/unnamed/part_000` (identical body to
revision 1's). -/
def updateStudyStatus (u : String) (status : String) (subject : Option String)
    (now : Nat) (upErr : Bool) (st : AppState) : AppState :=
  if upErr then st
  else { st with db := upsertSession u status (jsOrNull subject) now st.db }

/-- Embeds `sendGroupMessage` of `src/unnamed/part_000` (identical body to
revision 1's). -/
def sendGroupMessage (u : String) (message : String) (mentions : List String)
    (now : Nat) (insErr : Bool) (st : AppState) : AppState :=
  if insErr then st
  else
    { st with db := { st.db with
        group_messages := st.db.group_messages ++
          [{ id := st.db.nextId, user_id := u, message := message,
             mentions := some mentions, created_at := now }],
        nextId := st.db.nextId + 1 } }

end R2

/-- The provider component's state: the four mirror state variables and the
`isLoading` flag of `FriendsProvider`, the set of currently active realtime
channel subscriptions (named by table), and the cleanup React has stored for
the last effect run — `none` when the effect returned nothing, `some chs`
for a teardown that would unsubscribe the channels `chs`. -/
structure ProviderState where
  friends : List Friend
  friendRequests : List FriendRequest
  studySessions : List StudySession
  groupMessages : List GroupMessage
  isLoading : Bool
  subs : List String
  cleanup : Option (List String)
  deriving DecidableEq, Repr

/-- The provider's initial state: every mirror is created empty by
`useState([])`, `isLoading` is false, nothing is subscribed. -/
def initialProviderState : ProviderState :=
  { friends := [], friendRequests := [], studySessions := [],
    groupMessages := [], isLoading := false, subs := [], cleanup := none }

/-- Embeds `setupRealtimeSubscriptions` of
`src/src/context/FriendsContext.tsx`: subscribe the three channels
(friend requests, study sessions, group messages — none for friend links)
and return a teardown closure that would unsubscribe exactly those three.
The result pairs the enlarged subscription set with the teardown's channel
list. -/
def setupRealtimeSubscriptions (subs : List String) :
    List String × List String :=
  (subs ++ ["friend_requests", "study_sessions", "group_messages"],
   ["friend_requests", "study_sessions", "group_messages"])

/-- Embeds the body of the `useEffect(..., [user])` callback of
`FriendsProvider`.  With a user present it runs `loadFriendsData` (the four
loaders over the same pre-effect state — `loadStudySessions` reads the
`friends` state variable captured at render time, i.e. the pre-effect
mirror) and then calls `setupRealtimeSubscriptions()` WITHOUT using its
return value; the callback itself returns nothing, so the cleanup React
stores for this run is `none`.  With no user it clears all four mirrors in
the same invocation.  `ef1 ef2 er1 er2 es1 es2 em1 em2` are the error flags
of the eight fetches the four loaders may issue. -/
def providerEffect (user : Option String) (db : DB)
    (ef1 ef2 er1 er2 es1 es2 em1 em2 : Bool) (st : ProviderState) :
    ProviderState :=
  match user with
  | some u =>
    let friends' := R1.loadFriends u db ef1 ef2 st.friends
    let friendRequests' := R1.loadFriendRequests u db er1 er2 st.friendRequests
    let studySessions' := R1.loadStudySessions u db es1 es2 st.friends st.studySessions
    let groupMessages' := R1.loadGroupMessages u db em1 em2 st.groupMessages
    let (subs', _teardown) := setupRealtimeSubscriptions st.subs
    { st with
        friends := friends',
        friendRequests := friendRequests',
        studySessions := studySessions',
        groupMessages := groupMessages',
        isLoading := false,
        subs := subs',
        cleanup := none }
  | none =>
    { st with
        friends := [],
        friendRequests := [],
        studySessions := [],
        groupMessages := [],
        cleanup := none }

/-- One React commit for a change of the `user` dependency: run the cleanup
stored for the previous effect run, if any (unsubscribing the channels it
closed over), then run the effect callback for the new `user` value. -/
def reactStep (user : Option String) (db : DB)
    (ef1 ef2 er1 er2 es1 es2 em1 em2 : Bool) (st : ProviderState) :
    ProviderState :=
  let st0 :=
    match st.cleanup with
    | some chs =>
      { st with subs := st.subs.filter (fun c => !(chs.contains c)),
                cleanup := none }
    | none => st
  providerEffect user db ef1 ef2 er1 er2 es1 es2 em1 em2 st0

/-- Component unmount: React runs only the stored cleanup, if any. -/
def reactUnmount (st : ProviderState) : ProviderState :=
  match st.cleanup with
  | some chs =>
    { st with subs := st.subs.filter (fun c => !(chs.contains c)),
              cleanup := none }
  | none => st

/-- A two-user directory used by the concrete evaluations below. -/
def alice : UserRow := { id := "u1", name := "Alice", email := "alice@x" }

/-- Second directory entry of the concrete world. -/
def bob : UserRow := { id := "u2", name := "Bob", email := "bob@x" }

/-- A remote state with the two directory users and every collection empty. -/
def baseDB : DB :=
  { users := [alice, bob], friends := [], friend_requests := [],
    study_sessions := [], group_messages := [], nextId := 1 }

/-- The client state over `baseDB` with empty mirrors. -/
def baseState : AppState :=
  { db := baseDB, friends := [], friendRequests := [], studySessions := [],
    groupMessages := [] }

/-- A remote state in which `u1` and `u2` hold a full accepted friendship:
both directional `friends` rows are present, exactly as
`acceptFriendRequest` leaves them. -/
def friendsDB : DB :=
  { baseDB with
      friends := [{ id := 1, user_id := "u1", friend_id := "u2", created_at := 10 },
                  { id := 2, user_id := "u2", friend_id := "u1", created_at := 10 }],
      nextId := 3 }

/-- The client state over `friendsDB` with empty mirrors. -/
def friendsState : AppState :=
  { db := friendsDB, friends := [], friendRequests := [], studySessions := [],
    groupMessages := [] }

/-- C2: the claim states that `sendFriendRequest` returns false and writes
no row whenever a friend-link row already exists between the caller and the
resolved user in either direction.  The code violates this: with a full
accepted friendship both directional rows match the or-of-and existence
query, PostgREST's `.single()` then reports "multiple rows" with null data,
the ignored-error check sees null and passes, and the code inserts a
request row and returns true.  This theorem evaluates the code at that
failing input: caller `u1` sending to `bob@x` while both friend-link rows
between `u1` and `u2` exist. -/
theorem sendFriendRequest_true_despite_two_row_friendship :
    (friendsState.db.friends.filter (pairMatch "u1" "u2")).length = 2 ∧
    (R1.sendFriendRequest "u1" "bob@x" 20 false friendsState).2 = true ∧
    (R1.sendFriendRequest "u1" "bob@x" 20 false friendsState).1.db.friend_requests =
      [{ id := 3, sender_id := "u1", receiver_id := "u2", status := "pending",
         created_at := 20 }] := by
  refine ⟨rfl, rfl, rfl⟩

/-- C8: the claim states that on session teardown or unmount all three
change-notification subscriptions are unsubscribed.  The code violates
this: the `useEffect` body calls `setupRealtimeSubscriptions()` but
discards its return value (the unsubscribing teardown) and itself returns
nothing, so React stores no cleanup and the three channel subscriptions
survive the session.  This theorem evaluates the lifecycle at a session
start followed by a session end: all three subscriptions are still active
afterward, and they also survive a subsequent unmount. -/
theorem subscriptions_leak_after_session_end :
    (reactStep none baseDB false false false false false false false false
        (reactStep (some "u1") baseDB false false false false false false false
          false initialProviderState)).subs =
      ["friend_requests", "study_sessions", "group_messages"] ∧
    (reactUnmount
        (reactStep none baseDB false false false false false false false false
          (reactStep (some "u1") baseDB false false false false false false
            false false initialProviderState))).subs ≠ [] := by
  refine ⟨rfl, by decide⟩

/-- C9: all four mirrors are created empty on mount
(`useState([])` for each), and whenever the user becomes absent the effect's
else-branch clears all four in the same invocation — the single resulting
state has every mirror empty, so no partial teardown is observable. -/
theorem mirrors_empty_on_mount_and_cleared_on_session_end :
    (initialProviderState.friends = [] ∧
     initialProviderState.friendRequests = [] ∧
     initialProviderState.studySessions = [] ∧
     initialProviderState.groupMessages = []) ∧
    ∀ (db : DB) (st : ProviderState) (e1 e2 e3 e4 e5 e6 e7 e8 : Bool),
      (reactStep none db e1 e2 e3 e4 e5 e6 e7 e8 st).friends = [] ∧
      (reactStep none db e1 e2 e3 e4 e5 e6 e7 e8 st).friendRequests = [] ∧
      (reactStep none db e1 e2 e3 e4 e5 e6 e7 e8 st).studySessions = [] ∧
      (reactStep none db e1 e2 e3 e4 e5 e6 e7 e8 st).groupMessages = [] := by
  refine ⟨⟨rfl, rfl, rfl, rfl⟩, ?_⟩
  intro db st e1 e2 e3 e4 e5 e6 e7 e8
  cases h : st.cleanup <;> simp [reactStep, providerEffect, h]

/-- An arbitrary nonempty previous friends mirror, used to witness that a
failed reload leaves a nonempty previous value fully intact. -/
def prevFriends : List Friend :=
  [{ id := 9, user_id := "u9", friend_id := "u8", friend_name := "Old",
     friend_email := "old@x", created_at := 1 }]

/-- An arbitrary nonempty previous friend-request mirror. -/
def prevRequests : List FriendRequest :=
  [{ id := 9, sender_id := "u9", receiver_id := "u8", sender_name := "Old",
     sender_email := "old@x", status := "pending", created_at := 1 }]

/-- An arbitrary nonempty previous study-session mirror. -/
def prevSessions : List StudySession :=
  [{ id := 9, user_id := "u9", user_name := "Old", status := "studying",
     subject := none, started_at := 1, last_active := 1 }]

/-- An arbitrary nonempty previous group-message mirror. -/
def prevMessages : List GroupMessage :=
  [{ id := 9, user_id := "u9", user_name := "Old", message := "hi",
     mentions := [], created_at := 1 }]

/-- A remote state carrying one row in each mutable collection, so that
every loader's second directory round-trip is actually issued. -/
def populatedDB : DB :=
  { users := [alice, bob],
    friends := [{ id := 1, user_id := "u1", friend_id := "u2", created_at := 10 }],
    friend_requests := [{ id := 2, sender_id := "u2", receiver_id := "u1",
                          status := "pending", created_at := 11 }],
    study_sessions := [{ id := 3, user_id := "u1", status := "studying",
                         subject := some "math", started_at := 12,
                         last_active := 13 }],
    group_messages := [{ id := 4, user_id := "u2", message := "hello",
                         mentions := none, created_at := 14 }],
    nextId := 5 }

/-- C3: every per-collection loader of the two-round-trip revision returns
without modifying its mirror when any fetch it issues errors: the primary
fetch erroring keeps the previous mirror for any state of the second flag,
and the second-round-trip directory lookup — issued only when the primary
fetch returned rows — erroring also keeps the previous mirror in full. -/
theorem loaders_keep_previous_mirror_on_fetch_error :
    (∀ (u : String) (db : DB) (e2 : Bool) (prev : List Friend),
       R1.loadFriends u db true e2 prev = prev) ∧
    (∀ (u : String) (db : DB) (prev : List Friend),
       (db.friends.filter (fun f => f.user_id == u)).isEmpty = false →
       R1.loadFriends u db false true prev = prev) ∧
    (∀ (u : String) (db : DB) (e2 : Bool) (prev : List FriendRequest),
       R1.loadFriendRequests u db true e2 prev = prev) ∧
    (∀ (u : String) (db : DB) (prev : List FriendRequest),
       (db.friend_requests.filter
         (fun r => r.receiver_id == u && r.status == "pending")).isEmpty = false →
       R1.loadFriendRequests u db false true prev = prev) ∧
    (∀ (u : String) (db : DB) (e2 : Bool) (fm : List Friend)
       (prev : List StudySession),
       R1.loadStudySessions u db true e2 fm prev = prev) ∧
    (∀ (u : String) (db : DB) (fm : List Friend) (prev : List StudySession),
       (db.study_sessions.filter (fun s =>
         (u :: fm.map (fun f => f.friend_id)).contains s.user_id)).isEmpty
           = false →
       R1.loadStudySessions u db false true fm prev = prev) ∧
    (∀ (u : String) (db : DB) (e2 : Bool) (prev : List GroupMessage),
       R1.loadGroupMessages u db true e2 prev = prev) ∧
    (∀ (u : String) (db : DB) (prev : List GroupMessage),
       ((sortByCreatedDesc db.group_messages).take 50).isEmpty = false →
       R1.loadGroupMessages u db false true prev = prev) := by
  refine ⟨?_, ?_, ?_, ?_, ?_, ?_, ?_, ?_⟩
  · intro u db e2 prev; simp [R1.loadFriends]
  · intro u db prev h; simp [R1.loadFriends, h]
  · intro u db e2 prev; simp [R1.loadFriendRequests]
  · intro u db prev h; simp [R1.loadFriendRequests, h]
  · intro u db e2 fm prev; simp [R1.loadStudySessions]
  · intro u db fm prev h
    simp only [R1.loadStudySessions]
    rw [h]
    simp
  · intro u db e2 prev; simp [R1.loadGroupMessages]
  · intro u db prev h; simp [R1.loadGroupMessages, h]

/-- Witness for C3 at a concrete populated state: both the primary-fetch
and the directory-fetch error cases of each loader keep the concrete
nonempty previous mirrors. -/
theorem loaders_keep_previous_mirror_on_fetch_error_witness :
    R1.loadFriends "u1" populatedDB true false prevFriends = prevFriends ∧
    R1.loadFriends "u1" populatedDB false true prevFriends = prevFriends ∧
    R1.loadFriendRequests "u1" populatedDB true false prevRequests
      = prevRequests ∧
    R1.loadFriendRequests "u1" populatedDB false true prevRequests
      = prevRequests ∧
    R1.loadStudySessions "u1" populatedDB true false [] prevSessions
      = prevSessions ∧
    R1.loadStudySessions "u1" populatedDB false true [] prevSessions
      = prevSessions ∧
    R1.loadGroupMessages "u1" populatedDB true false prevMessages
      = prevMessages ∧
    R1.loadGroupMessages "u1" populatedDB false true prevMessages
      = prevMessages :=
  ⟨loaders_keep_previous_mirror_on_fetch_error.1 "u1" populatedDB false
     prevFriends,
   loaders_keep_previous_mirror_on_fetch_error.2.1 "u1" populatedDB
     prevFriends (by decide),
   loaders_keep_previous_mirror_on_fetch_error.2.2.1 "u1" populatedDB false
     prevRequests,
   loaders_keep_previous_mirror_on_fetch_error.2.2.2.1 "u1" populatedDB
     prevRequests (by decide),
   loaders_keep_previous_mirror_on_fetch_error.2.2.2.2.1 "u1" populatedDB
     false [] prevSessions,
   loaders_keep_previous_mirror_on_fetch_error.2.2.2.2.2.1 "u1" populatedDB
     [] prevSessions (by decide),
   loaders_keep_previous_mirror_on_fetch_error.2.2.2.2.2.2.1 "u1" populatedDB
     false prevMessages,
   loaders_keep_previous_mirror_on_fetch_error.2.2.2.2.2.2.2 "u1" populatedDB
     prevMessages (by decide)⟩

/-- C4: a successful run of the group-message loader yields a mirror of at
most 50 messages, ordered oldest-to-newest by `created_at`, whose timestamp
sequence is exactly the reverse of the newest-first limit-50 fetch, and
every message the fetch dropped is no newer than any message in the mirror
(so the mirror holds at most the 50 most recent messages). -/
theorem loadGroupMessages_newest_fifty_oldest_first :
    ∀ (u : String) (db : DB) (prev : List GroupMessage),
      (R1.loadGroupMessages u db false false prev).length ≤ 50 ∧
      List.Pairwise (fun a b => a.created_at ≤ b.created_at)
        (R1.loadGroupMessages u db false false prev) ∧
      (R1.loadGroupMessages u db false false prev).map (fun m => m.created_at)
        = (((sortByCreatedDesc db.group_messages).take 50).map
            (fun m => m.created_at)).reverse ∧
      ∀ x ∈ (sortByCreatedDesc db.group_messages).drop 50,
        ∀ y ∈ R1.loadGroupMessages u db false false prev,
          x.created_at ≤ y.created_at := by
  intro u db prev
  have hsorted :
      List.Pairwise (fun x y : MessageRow => y.created_at ≤ x.created_at)
        (sortByCreatedDesc db.group_messages) :=
    List.sorted_insertionSort _ db.group_messages
  have htake :
      List.Pairwise (fun x y : MessageRow => y.created_at ≤ x.created_at)
        ((sortByCreatedDesc db.group_messages).take 50) :=
    hsorted.sublist (List.take_sublist 50 _)
  have hsplit :
      ∀ x ∈ (sortByCreatedDesc db.group_messages).drop 50,
        ∀ a ∈ (sortByCreatedDesc db.group_messages).take 50,
          x.created_at ≤ a.created_at := by
    intro x hx a ha
    have h1 := List.take_append_drop 50 (sortByCreatedDesc db.group_messages)
    rw [← h1] at hsorted
    exact (List.pairwise_append.mp hsorted).2.2 a ha x hx
  by_cases hemp :
      ((sortByCreatedDesc db.group_messages).take 50).isEmpty = true
  · have hnil : (sortByCreatedDesc db.group_messages).take 50 = [] := by
      simpa using hemp
    have hres : R1.loadGroupMessages u db false false prev = [] := by
      simp [R1.loadGroupMessages, hemp]
    refine ⟨?_, ?_, ?_, ?_⟩
    · simp [hres]
    · simp [hres]
    · simp [hres, hnil]
    · intro x hx y hy
      rw [hres] at hy
      exact absurd hy (List.not_mem_nil y)
  · have hres : R1.loadGroupMessages u db false false prev =
        (((sortByCreatedDesc db.group_messages).take 50).map (fun m =>
          let messageUser :=
            (db.users.filter (fun us =>
              ((((sortByCreatedDesc db.group_messages).take 50).map
                (fun m => m.user_id)).dedup).contains us.id)).find?
              (fun us => us.id == m.user_id)
          { id := m.id, user_id := m.user_id,
            user_name := jsOr (messageUser.map (fun mu => mu.name)) "Unknown",
            message := m.message, mentions := m.mentions.getD [],
            created_at := m.created_at : GroupMessage })).reverse := by
      simp [R1.loadGroupMessages, hemp]
    refine ⟨?_, ?_, ?_, ?_⟩
    · rw [hres]
      simp only [List.length_reverse, List.length_map, List.length_take]
      exact Nat.min_le_left _ _
    · rw [hres, List.pairwise_reverse, List.pairwise_map]
      exact htake
    · rw [hres, List.map_reverse, List.map_map]
      rfl
    · intro x hx y hy
      rw [hres, List.mem_reverse, List.mem_map] at hy
      obtain ⟨a, ha, rfl⟩ := hy
      exact hsplit x hx a ha

/-- A remote state holding 51 messages with ascending timestamps, one more
than the fetch window, so the limit-50 fetch actually drops a message. -/
def manyMessagesDB : DB :=
  { users := [alice, bob], friends := [], friend_requests := [],
    study_sessions := [],
    group_messages := (List.range 51).map (fun i =>
      { id := i, user_id := "u2", message := "m", mentions := none,
        created_at := i }),
    nextId := 60 }

/-- Witness for C4 over the 51-message state: the mirror respects the
50-message cap, and the one dropped message (timestamp 0) is no newer than
the oldest mirrored message (timestamp 1). -/
theorem loadGroupMessages_newest_fifty_oldest_first_witness :
    (R1.loadGroupMessages "u1" manyMessagesDB false false []).length ≤ 50 ∧
    ({ id := 0, user_id := "u2", message := "m", mentions := none,
       created_at := 0 : MessageRow }).created_at ≤
      ({ id := 1, user_id := "u2", user_name := "Bob", message := "m",
         mentions := [], created_at := 1 : GroupMessage }).created_at :=
  ⟨(loadGroupMessages_newest_fifty_oldest_first "u1" manyMessagesDB []).1,
   (loadGroupMessages_newest_fifty_oldest_first "u1"
      manyMessagesDB []).2.2.2
     { id := 0, user_id := "u2", message := "m", mentions := none,
       created_at := 0 } (by decide)
     { id := 1, user_id := "u2", user_name := "Bob", message := "m",
       mentions := [], created_at := 1 } (by decide)⟩

/-- C5: a successful `removeFriend(f)` returns true and leaves in the
`friends` collection exactly the rows that match neither direction of the
caller-`f` pair (both directional rows of an accepted friendship are
deleted); when no row between the caller and `f` exists the collection is
untouched and the call still returns true; and an immediately repeated
`removeFriend(f)` changes nothing further and also returns true. -/
theorem removeFriend_deletes_both_directions_and_is_idempotent :
    ∀ (u f : String) (st : AppState) (lf1 lf2 lf1' lf2' : Bool),
      (R1.removeFriend u f false lf1 lf2 st).2 = true ∧
      (R1.removeFriend u f false lf1 lf2 st).1.db.friends
        = st.db.friends.filter (fun r => !(pairMatch u f r)) ∧
      (∀ r ∈ (R1.removeFriend u f false lf1 lf2 st).1.db.friends,
        pairMatch u f r = false) ∧
      (st.db.friends.filter (pairMatch u f) = [] →
        (R1.removeFriend u f false lf1 lf2 st).1.db.friends
          = st.db.friends) ∧
      (R1.removeFriend u f false lf1' lf2'
          (R1.removeFriend u f false lf1 lf2 st).1).1.db.friends
        = (R1.removeFriend u f false lf1 lf2 st).1.db.friends ∧
      (R1.removeFriend u f false lf1' lf2'
          (R1.removeFriend u f false lf1 lf2 st).1).2 = true := by
  intro u f st lf1 lf2 lf1' lf2'
  refine ⟨rfl, rfl, ?_, ?_, ?_, rfl⟩
  · intro r hr
    simp only [R1.removeFriend, Bool.false_eq_true, if_false,
      List.mem_filter] at hr
    simpa using hr.2
  · intro hnone
    simp only [R1.removeFriend, Bool.false_eq_true, if_false]
    rw [List.filter_eq_self]
    intro a ha
    have : pairMatch u f a = false := by
      by_contra hcon
      have hmem : a ∈ st.db.friends.filter (pairMatch u f) :=
        List.mem_filter.mpr ⟨ha, by simpa using hcon⟩
      rw [hnone] at hmem
      exact absurd hmem (List.not_mem_nil a)
    simp [this]
  · simp only [R1.removeFriend, Bool.false_eq_true, if_false]
    rw [List.filter_filter]
    exact List.filter_congr (fun a _ => by cases pairMatch u f a <;> rfl)

/-- Witness for C5: removing the `u1`-`u2` friendship from `friendsDB`
returns true and empties the collection, removing on the friendless
`baseState` is a no-op that still returns true, and the repeated removal is
a no-op returning true. -/
theorem removeFriend_deletes_both_directions_and_is_idempotent_witness :
    (R1.removeFriend "u1" "u2" false false false friendsState).2 = true ∧
    (R1.removeFriend "u1" "u2" false false false friendsState).1.db.friends
      = [] ∧
    (R1.removeFriend "u1" "u2" false false false baseState).1.db.friends
      = baseState.db.friends ∧
    (R1.removeFriend "u1" "u2" false false false
        (R1.removeFriend "u1" "u2" false false false friendsState).1).2
      = true :=
  ⟨(removeFriend_deletes_both_directions_and_is_idempotent "u1" "u2"
      friendsState false false false false).1,
   by
    rw [(removeFriend_deletes_both_directions_and_is_idempotent "u1" "u2"
      friendsState false false false false).2.1]
    decide,
   (removeFriend_deletes_both_directions_and_is_idempotent "u1" "u2"
      baseState false false false false).2.2.2.1 (by decide),
   (removeFriend_deletes_both_directions_and_is_idempotent "u1" "u2"
      friendsState false false false false).2.2.2.2.2⟩

/-- C6: `rejectFriendRequest` writes no friend-link row: the remote
`friends` collection and the friends mirror after the call equal those
before, whether the update succeeds or fails; the directory, session and
message collections are likewise untouched; on success its only remote
write sets the request's status to `rejected` and the call returns true,
and on failure the whole state is unchanged and the call returns false. -/
theorem rejectFriendRequest_never_creates_friend_links :
    ∀ (u : String) (rid : Nat) (e lr1 lr2 : Bool) (st : AppState),
      (R1.rejectFriendRequest u rid e lr1 lr2 st).1.db.friends
        = st.db.friends ∧
      (R1.rejectFriendRequest u rid e lr1 lr2 st).1.friends = st.friends ∧
      (R1.rejectFriendRequest u rid e lr1 lr2 st).1.db.users = st.db.users ∧
      (R1.rejectFriendRequest u rid e lr1 lr2 st).1.db.study_sessions
        = st.db.study_sessions ∧
      (R1.rejectFriendRequest u rid e lr1 lr2 st).1.db.group_messages
        = st.db.group_messages ∧
      (e = false →
        (R1.rejectFriendRequest u rid e lr1 lr2 st).1.db.friend_requests
          = st.db.friend_requests.map (fun r =>
              if r.id == rid then { r with status := "rejected" } else r) ∧
        (R1.rejectFriendRequest u rid e lr1 lr2 st).2 = true) ∧
      (e = true →
        (R1.rejectFriendRequest u rid e lr1 lr2 st).1 = st ∧
        (R1.rejectFriendRequest u rid e lr1 lr2 st).2 = false) := by
  intro u rid e lr1 lr2 st
  cases e <;>
    simp [R1.rejectFriendRequest]

/-- Witness for C6 at the concrete populated state: both the successful and
the failing reject keep the friend-link rows of `populatedDB`, the
successful one marks request 2 rejected, and the failing one changes
nothing. -/
theorem rejectFriendRequest_never_creates_friend_links_witness :
    (R1.rejectFriendRequest "u1" 2 false false false
        { db := populatedDB, friends := [], friendRequests := [],
          studySessions := [], groupMessages := [] }).1.db.friends
      = populatedDB.friends ∧
    (R1.rejectFriendRequest "u1" 2 true false false
        { db := populatedDB, friends := [], friendRequests := [],
          studySessions := [], groupMessages := [] }).2 = false :=
  ⟨(rejectFriendRequest_never_creates_friend_links "u1" 2 false false false
      _).1,
   ((rejectFriendRequest_never_creates_friend_links "u1" 2 true false false
      _).2.2.2.2.2.2 rfl).2⟩

/-- Filtering a pointwise update keeps exactly the updated versions of the
rows that pass the filter, provided the update preserves the filter. -/
theorem filter_map_ite {α : Type} (l : List α) (p : α → Bool) (upd : α → α)
    (hp : ∀ s, p s = true → p (upd s) = true) :
    (l.map (fun s => if p s then upd s else s)).filter p
      = (l.filter p).map upd := by
  induction l with
  | nil => rfl
  | cons a l ih =>
    by_cases hpa : p a = true
    · simp [hpa, hp a hpa, ih]
    · simp only [Bool.not_eq_true] at hpa
      simp [hpa, ih]

/-- A presence upsert over a state holding at most one row for the user
leaves exactly one row for the user, stamped with the write time. -/
theorem upsertSession_filter_last_active (u status : String)
    (subj : Option String) (now : Nat) (db : DB)
    (h : db.study_sessions.countP (fun s => s.user_id == u) ≤ 1) :
    ((upsertSession u status subj now db).study_sessions.filter
        (fun s => s.user_id == u)).map (fun s => s.last_active) = [now] := by
  by_cases hany : db.study_sessions.any (fun s => s.user_id == u) = true
  · have hpos : 0 < db.study_sessions.countP (fun s => s.user_id == u) := by
      rw [List.countP_pos_iff]
      simpa using List.any_eq_true.mp hany
    have hone : db.study_sessions.countP (fun s => s.user_id == u) = 1 :=
      Nat.le_antisymm h hpos
    have hlen :
        (db.study_sessions.filter (fun s => s.user_id == u)).length = 1 := by
      rw [← List.countP_eq_length_filter]
      exact hone
    obtain ⟨a, ha⟩ := List.length_eq_one.mp hlen
    simp only [upsertSession, hany, if_true]
    rw [filter_map_ite _ _ _ (fun s hs => by
      simp only [beq_iff_eq] at hs ⊢
      exact hs)]
    rw [ha]
    rfl
  · simp only [Bool.not_eq_true] at hany
    have hnil : db.study_sessions.filter (fun s => s.user_id == u) = [] := by
      rw [List.filter_eq_nil_iff]
      intro a ha
      have := List.any_eq_false.mp hany a ha
      simpa using this
    simp only [upsertSession, hany, Bool.false_eq_true, if_false,
      List.filter_append, hnil]
    simp

/-- C7: `updateStudyStatus` upserts keyed by the user id (the key is
spec-modelled: the `study_sessions` schema is not under `src/`).  Starting
from any state with at most one presence row for the caller — the schema's
standing invariant — each call leaves exactly one presence row for the
caller, its `last_active` equal to that call's timestamp, so two successive
calls with increasing clock readings leave a single row whose `last_active`
strictly increased from the first call's to the second call's stamp. -/
theorem updateStudyStatus_upserts_single_row :
    ∀ (u : String) (st : AppState) (s1 s2 : String) (sub1 sub2 : Option String)
      (n1 n2 : Nat),
      st.db.study_sessions.countP (fun r => r.user_id == u) ≤ 1 →
      n1 < n2 →
      (((R1.updateStudyStatus u s1 sub1 n1 false st).db.study_sessions.filter
          (fun r => r.user_id == u)).map (fun r => r.last_active) = [n1]) ∧
      (((R1.updateStudyStatus u s2 sub2 n2 false
            (R1.updateStudyStatus u s1 sub1 n1 false st)).db.study_sessions.filter
          (fun r => r.user_id == u)).map (fun r => r.last_active) = [n2]) ∧
      n1 < n2 ∧
      (∀ (st' : AppState) (s : String) (sub : Option String) (n : Nat),
        st'.db.study_sessions.countP (fun r => r.user_id == u) ≤ 1 →
        (R1.updateStudyStatus u s sub n false st').db.study_sessions.countP
          (fun r => r.user_id == u) = 1) := by
  intro u st s1 s2 sub1 sub2 n1 n2 hcount hlt
  have hstep :
      ∀ (st' : AppState) (s : String) (sub : Option String) (n : Nat),
        st'.db.study_sessions.countP (fun r => r.user_id == u) ≤ 1 →
        ((R1.updateStudyStatus u s sub n false st').db.study_sessions.filter
          (fun r => r.user_id == u)).map (fun r => r.last_active) = [n] := by
    intro st' s sub n h
    exact upsertSession_filter_last_active u s (jsOrNull sub) n st'.db h
  have hcountOf :
      ∀ (st' : AppState) (s : String) (sub : Option String) (n : Nat),
        st'.db.study_sessions.countP (fun r => r.user_id == u) ≤ 1 →
        (R1.updateStudyStatus u s sub n false st').db.study_sessions.countP
          (fun r => r.user_id == u) = 1 := by
    intro st' s sub n h
    have hm := hstep st' s sub n h
    have hlen := congrArg List.length hm
    simp only [List.length_map, List.length_singleton] at hlen
    rw [List.countP_eq_length_filter]
    exact hlen
  have h1 := hstep st s1 sub1 n1 hcount
  have hc1 := hcountOf st s1 sub1 n1 hcount
  have h2 := hstep (R1.updateStudyStatus u s1 sub1 n1 false st) s2 sub2 n2
    (by rw [hc1])
  exact ⟨h1, h2, hlt, hcountOf⟩

/-- Witness for C7: two successive status writes by `u1` over `baseDB`
(which holds no presence row) leave exactly one row stamped 5 and then 9. -/
theorem updateStudyStatus_upserts_single_row_witness :
    (((R1.updateStudyStatus "u1" "studying" (some "math") 5 false
        baseState).db.study_sessions.filter
        (fun r => r.user_id == "u1")).map (fun r => r.last_active) = [5]) ∧
    (((R1.updateStudyStatus "u1" "break" none 9 false
          (R1.updateStudyStatus "u1" "studying" (some "math") 5 false
            baseState)).db.study_sessions.filter
        (fun r => r.user_id == "u1")).map (fun r => r.last_active) = [9]) ∧
    (5 : Nat) < 9 :=
  ⟨(updateStudyStatus_upserts_single_row "u1" baseState "studying" "break"
      (some "math") none 5 9 (by decide) (by decide)).1,
   (updateStudyStatus_upserts_single_row "u1" baseState "studying" "break"
      (some "math") none 5 9 (by decide) (by decide)).2.1,
   by decide⟩

/-- C1: for a sender `s` and a distinct receiver (the unique directory user
`ru` holding the given email), with no friend-link row between them in
either direction, no request between them, and all stored request ids below
the id counter (the backend's id-freshness invariant), `sendFriendRequest`
succeeds, and the receiver's `acceptFriendRequest` on the resulting request
succeeds and leaves exactly two friend-link rows for the pair — user_id =
receiver with friend_id = sender, and user_id = sender with friend_id =
receiver — while the originating request row now carries status
`accepted`. -/
theorem sendFriendRequest_then_accept_creates_mutual_friendship :
    ∀ (s : String) (ru : UserRow) (email : String) (st : AppState)
      (now1 now2 : Nat),
      st.db.users.filter (fun us => us.email == email) = [ru] →
      ru.id ≠ s →
      st.db.friends.filter (pairMatch s ru.id) = [] →
      st.db.friend_requests.filter (fun q =>
        (q.sender_id == s && q.receiver_id == ru.id) ||
        (q.sender_id == ru.id && q.receiver_id == s)) = [] →
      (∀ q ∈ st.db.friend_requests, q.id < st.db.nextId) →
      (R1.sendFriendRequest s email now1 false st).2 = true ∧
      (R1.acceptFriendRequest ru.id st.db.nextId now2 false false false false
        false false (R1.sendFriendRequest s email now1 false st).1).2
        = true ∧
      (R1.acceptFriendRequest ru.id st.db.nextId now2 false false false false
        false false
        (R1.sendFriendRequest s email now1 false st).1).1.db.friends.filter
          (pairMatch s ru.id)
        = [{ id := st.db.nextId + 1, user_id := ru.id, friend_id := s,
             created_at := now2 },
           { id := st.db.nextId + 2, user_id := s, friend_id := ru.id,
             created_at := now2 }] ∧
      (R1.acceptFriendRequest ru.id st.db.nextId now2 false false false false
        false false
        (R1.sendFriendRequest s email now1 false st).1).1.db.friend_requests
        = st.db.friend_requests ++
          [{ id := st.db.nextId, sender_id := s, receiver_id := ru.id,
             status := "accepted", created_at := now1 }] := by
  intro s ru email st now1 now2 hemail hne hnofr _hnoreq hids
  have hbeq : (ru.id == s) = false := beq_eq_false_iff_ne.mpr hne
  have hsend : R1.sendFriendRequest s email now1 false st =
      ({ st with db := { st.db with
          friend_requests := st.db.friend_requests ++
            [{ id := st.db.nextId, sender_id := s, receiver_id := ru.id,
               status := "pending", created_at := now1 }],
          nextId := st.db.nextId + 1 } }, true) := by
    simp only [R1.sendFriendRequest, hemail, hnofr, single, hbeq,
      Bool.false_eq_true, if_false]
  have hfilter1 :
      ((R1.sendFriendRequest s email now1 false
          st).1.db.friend_requests.filter
        (fun r => r.id == st.db.nextId))
        = [{ id := st.db.nextId, sender_id := s, receiver_id := ru.id,
             status := "pending", created_at := now1 }] := by
    rw [hsend]
    simp only [List.filter_append]
    have hold : st.db.friend_requests.filter
        (fun r => r.id == st.db.nextId) = [] := by
      rw [List.filter_eq_nil_iff]
      intro q hq
      simpa using Nat.ne_of_lt (hids q hq)
    rw [hold]
    simp
  have hmapold : st.db.friend_requests.map (fun r =>
      if r.id == st.db.nextId then { r with status := "accepted" } else r)
      = st.db.friend_requests := by
    have hcongr : ∀ q ∈ st.db.friend_requests,
        (if q.id == st.db.nextId then
          { q with status := "accepted" } else q) = id q := by
      intro q hq
      have : (q.id == st.db.nextId) = false := by
        simpa using Nat.ne_of_lt (hids q hq)
      simp [this]
    rw [List.map_congr_left hcongr, List.map_id]
  have haccept : (R1.acceptFriendRequest ru.id st.db.nextId now2 false false
      false false false false
      (R1.sendFriendRequest s email now1 false st).1).1.db =
      { st.db with
          friends := st.db.friends ++
            [{ id := st.db.nextId + 1, user_id := ru.id, friend_id := s,
               created_at := now2 },
             { id := st.db.nextId + 2, user_id := s, friend_id := ru.id,
               created_at := now2 }],
          friend_requests := st.db.friend_requests ++
            [{ id := st.db.nextId, sender_id := s, receiver_id := ru.id,
               status := "accepted", created_at := now1 }],
          nextId := st.db.nextId + 3 } := by
    simp only [R1.acceptFriendRequest, hfilter1, single, Bool.false_eq_true,
      if_false]
    rw [hsend]
    simp only [List.map_append, hmapold]
    simp [Nat.add_assoc]
  refine ⟨?_, ?_, ?_, ?_⟩
  · rw [hsend]
  · simp only [R1.acceptFriendRequest, hfilter1, single, Bool.false_eq_true,
      if_false]
  · rw [haccept]
    simp only [List.filter_append, hnofr, List.nil_append]
    have h1 : pairMatch s ru.id
        { id := st.db.nextId + 1, user_id := ru.id, friend_id := s,
          created_at := now2 } = true := by
      simp [pairMatch]
    have h2 : pairMatch s ru.id
        { id := st.db.nextId + 2, user_id := s, friend_id := ru.id,
          created_at := now2 } = true := by
      simp [pairMatch]
    simp [List.filter, h1, h2]
  · rw [haccept]

/-- Witness for C1: in the concrete two-user world, `u1` sends a request to
`bob@x` and `u2` accepts request 1; both calls return true, the pair gets
exactly its two directional friend rows, and the request row is accepted. -/
theorem sendFriendRequest_then_accept_creates_mutual_friendship_witness :
    (R1.sendFriendRequest "u1" "bob@x" 20 false baseState).2 = true ∧
    (R1.acceptFriendRequest "u2" 1 30 false false false false false false
      (R1.sendFriendRequest "u1" "bob@x" 20 false baseState).1).2 = true ∧
    (R1.acceptFriendRequest "u2" 1 30 false false false false false false
      (R1.sendFriendRequest "u1" "bob@x" 20 false
        baseState).1).1.db.friends.filter (pairMatch "u1" "u2")
      = [{ id := 2, user_id := "u2", friend_id := "u1", created_at := 30 },
         { id := 3, user_id := "u1", friend_id := "u2", created_at := 30 }] ∧
    (R1.acceptFriendRequest "u2" 1 30 false false false false false false
      (R1.sendFriendRequest "u1" "bob@x" 20 false
        baseState).1).1.db.friend_requests
      = [{ id := 1, sender_id := "u1", receiver_id := "u2",
           status := "accepted", created_at := 20 }] :=
  sendFriendRequest_then_accept_creates_mutual_friendship "u1" bob "bob@x"
    baseState 20 30 (by decide) (by decide) (by decide) (by decide)
    (by decide)

/-- Searching a filtered list finds the same element as searching the whole
list when the search predicate implies the filter, so the two-round-trip
restriction of the directory to the referenced ids is invisible to the
per-row lookup. -/
theorem find?_filter_superset {α : Type} (l : List α) (p q : α → Bool)
    (h : ∀ x, p x = true → q x = true) :
    (l.filter q).find? p = l.find? p := by
  induction l with
  | nil => rfl
  | cons a l ih =>
    by_cases hp : p a = true
    · have hq := h a hp
      simp [List.filter, hq, List.find?, hp]
    · simp only [Bool.not_eq_true] at hp
      by_cases hq : q a = true
      · simp [List.filter, hq, List.find?, hp, ih]
      · simp only [Bool.not_eq_true] at hq
        simp [List.filter, hq, List.find?, hp, ih]

/-- On a successful run the two revisions' `loadFriends` agree: filtering
the directory to the referenced friend ids before the in-memory join does
not change any lookup result. -/
theorem loadFriends_R1_eq_R2 (u : String) (db : DB) (prev : List Friend) :
    R1.loadFriends u db false false prev = R2.loadFriends u db false prev := by
  simp only [R1.loadFriends, R2.loadFriends, Bool.false_eq_true, if_false]
  by_cases hemp : (db.friends.filter (fun f => f.user_id == u)).isEmpty = true
  · have hnil : db.friends.filter (fun f => f.user_id == u) = [] := by
      simpa using hemp
    rw [if_pos hemp, hnil]
    rfl
  · rw [if_neg hemp]
    apply List.map_congr_left
    intro f hf
    have hmem : f.friend_id ∈
        (db.friends.filter (fun g => g.user_id == u)).map
          (fun g => g.friend_id) :=
      List.mem_map_of_mem _ hf
    have hfind := find?_filter_superset db.users
      (fun us => us.id == f.friend_id)
      (fun us =>
        ((db.friends.filter (fun g => g.user_id == u)).map
          (fun g => g.friend_id)).contains us.id)
      (fun x hx => by
        have hxe : x.id = f.friend_id := by simpa using hx
        simpa [hxe] using hmem)
    simp only [hfind]

/-- On a successful run the two revisions' `loadFriendRequests` agree. -/
theorem loadFriendRequests_R1_eq_R2 (u : String) (db : DB)
    (prev : List FriendRequest) :
    R1.loadFriendRequests u db false false prev
      = R2.loadFriendRequests u db false prev := by
  simp only [R1.loadFriendRequests, R2.loadFriendRequests, Bool.false_eq_true,
    if_false]
  by_cases hemp : (db.friend_requests.filter
      (fun r => r.receiver_id == u && r.status == "pending")).isEmpty = true
  · have hnil : db.friend_requests.filter
        (fun r => r.receiver_id == u && r.status == "pending") = [] := by
      simpa using hemp
    rw [if_pos hemp, hnil]
    rfl
  · rw [if_neg hemp]
    apply List.map_congr_left
    intro r hr
    have hmem : r.sender_id ∈
        (db.friend_requests.filter
          (fun q => q.receiver_id == u && q.status == "pending")).map
          (fun q => q.sender_id) :=
      List.mem_map_of_mem _ hr
    have hfind := find?_filter_superset db.users
      (fun us => us.id == r.sender_id)
      (fun us =>
        ((db.friend_requests.filter
          (fun q => q.receiver_id == u && q.status == "pending")).map
          (fun q => q.sender_id)).contains us.id)
      (fun x hx => by
        have hxe : x.id = r.sender_id := by simpa using hx
        simpa [hxe] using hmem)
    simp only [hfind]

/-- On a successful run the two revisions' `loadStudySessions` agree. -/
theorem loadStudySessions_R1_eq_R2 (u : String) (db : DB)
    (fm : List Friend) (prev : List StudySession) :
    R1.loadStudySessions u db false false fm prev
      = R2.loadStudySessions u db false fm prev := by
  simp only [R1.loadStudySessions, R2.loadStudySessions, Bool.false_eq_true,
    if_false]
  by_cases hemp : (db.study_sessions.filter (fun s =>
      (u :: fm.map (fun f => f.friend_id)).contains s.user_id)).isEmpty
        = true
  · have hnil : db.study_sessions.filter (fun s =>
        (u :: fm.map (fun f => f.friend_id)).contains s.user_id) = [] := by
      simpa using hemp
    rw [if_pos hemp, hnil]
    rfl
  · rw [if_neg hemp]
    apply List.map_congr_left
    intro s hs
    have hmem : s.user_id ∈
        (db.study_sessions.filter (fun t =>
          (u :: fm.map (fun f => f.friend_id)).contains t.user_id)).map
          (fun t => t.user_id) :=
      List.mem_map_of_mem _ hs
    have hfind := find?_filter_superset db.users
      (fun us => us.id == s.user_id)
      (fun us =>
        ((db.study_sessions.filter (fun t =>
          (u :: fm.map (fun f => f.friend_id)).contains t.user_id)).map
          (fun t => t.user_id)).contains us.id)
      (fun x hx => by
        have hxe : x.id = s.user_id := by simpa using hx
        simpa [hxe] using hmem)
    simp only [hfind]

/-- On a successful run the two revisions' `loadGroupMessages` agree: the
distinct-author restriction of the directory is invisible to the per-row
lookup. -/
theorem loadGroupMessages_R1_eq_R2 (u : String) (db : DB)
    (prev : List GroupMessage) :
    R1.loadGroupMessages u db false false prev
      = R2.loadGroupMessages u db false prev := by
  simp only [R1.loadGroupMessages, R2.loadGroupMessages, Bool.false_eq_true,
    if_false]
  by_cases hemp :
      ((sortByCreatedDesc db.group_messages).take 50).isEmpty = true
  · have hnil : (sortByCreatedDesc db.group_messages).take 50 = [] := by
      simpa using hemp
    rw [if_pos hemp, hnil]
    rfl
  · rw [if_neg hemp]
    congr 1
    apply List.map_congr_left
    intro m hm
    have hmem : m.user_id ∈
        (((sortByCreatedDesc db.group_messages).take 50).map
          (fun n => n.user_id)).dedup :=
      List.mem_dedup.mpr (List.mem_map_of_mem _ hm)
    have hfind := find?_filter_superset db.users
      (fun us => us.id == m.user_id)
      (fun us =>
        ((((sortByCreatedDesc db.group_messages).take 50).map
          (fun n => n.user_id)).dedup).contains us.id)
      (fun x hx => by
        have hxe : x.id = m.user_id := by simpa using hx
        simpa [hxe] using hmem)
    simp only [hfind]

/-- C10: the two controller revisions are observationally equivalent at the
public interface.  In this embedding the backend's foreign-key join and the
separate directory query read the same `users` table, so the claim's
precondition holds for every remote state: each of the four loaders of the
two-round-trip revision produces, on a successful run, exactly the mirror
(including the "Unknown" and empty-email defaults) produced by the
single-query revision, and each of the six mutation operations performs the
same remote writes, returns the same value, and (for the operations that
reload) leaves the same mirrors. -/
theorem revisions_observationally_equivalent :
    (∀ (u : String) (db : DB) (prev : List Friend),
      R1.loadFriends u db false false prev = R2.loadFriends u db false prev) ∧
    (∀ (u : String) (db : DB) (prev : List FriendRequest),
      R1.loadFriendRequests u db false false prev
        = R2.loadFriendRequests u db false prev) ∧
    (∀ (u : String) (db : DB) (fm : List Friend) (prev : List StudySession),
      R1.loadStudySessions u db false false fm prev
        = R2.loadStudySessions u db false fm prev) ∧
    (∀ (u : String) (db : DB) (prev : List GroupMessage),
      R1.loadGroupMessages u db false false prev
        = R2.loadGroupMessages u db false prev) ∧
    (∀ (u email : String) (now : Nat) (insErr : Bool) (st : AppState),
      R1.sendFriendRequest u email now insErr st
        = R2.sendFriendRequest u email now insErr st) ∧
    (∀ (u : String) (rid : Nat) (now : Nat) (insErr updErr : Bool)
      (st : AppState),
      R1.acceptFriendRequest u rid now insErr updErr false false false false st
        = R2.acceptFriendRequest u rid now insErr updErr false false st) ∧
    (∀ (u : String) (rid : Nat) (updErr : Bool) (st : AppState),
      R1.rejectFriendRequest u rid updErr false false st
        = R2.rejectFriendRequest u rid updErr false st) ∧
    (∀ (u fid : String) (delErr : Bool) (st : AppState),
      R1.removeFriend u fid delErr false false st
        = R2.removeFriend u fid delErr false st) ∧
    (∀ (u status : String) (subject : Option String) (now : Nat)
      (upErr : Bool) (st : AppState),
      R1.updateStudyStatus u status subject now upErr st
        = R2.updateStudyStatus u status subject now upErr st) ∧
    (∀ (u message : String) (mentions : List String) (now : Nat)
      (insErr : Bool) (st : AppState),
      R1.sendGroupMessage u message mentions now insErr st
        = R2.sendGroupMessage u message mentions now insErr st) := by
  refine ⟨loadFriends_R1_eq_R2, loadFriendRequests_R1_eq_R2,
    loadStudySessions_R1_eq_R2, loadGroupMessages_R1_eq_R2,
    ?_, ?_, ?_, ?_, ?_, ?_⟩
  · intro u email now insErr st
    rfl
  · intro u rid now insErr updErr st
    rcases hs : single (st.db.friend_requests.filter (fun r => r.id == rid))
      with _ | request
    · simp only [R1.acceptFriendRequest, R2.acceptFriendRequest, hs]
    · simp only [R1.acceptFriendRequest, R2.acceptFriendRequest, hs,
        loadFriends_R1_eq_R2, loadFriendRequests_R1_eq_R2]
  · intro u rid updErr st
    simp only [R1.rejectFriendRequest, R2.rejectFriendRequest,
      loadFriendRequests_R1_eq_R2]
  · intro u fid delErr st
    simp only [R1.removeFriend, R2.removeFriend, loadFriends_R1_eq_R2]
  · intro u status subject now upErr st
    rfl
  · intro u message mentions now insErr st
    rfl

end StudyApp
